import Mathlib

/-!
Verification of the helpdesk ticketing backend (FastAPI + Motor/MongoDB).

Shallow embedding of the core logic:
* `app/services/assignment.py` — round-robin agent assignment with a
  persisted rotation cursor in the `system_state` collection;
* `app/routers/tickets.py` — ticket creation, listing with filters and
  pagination, detail lookup, status update, deletion.

The document store is modelled as a `Store` structure holding the three
collections the handlers touch (`agents`, `system_state`, `tickets`,
`comments`) as Lean lists in collection iteration order.  Each HTTP
handler becomes a pure function from its inputs and the store to a
response (`Except HTTPError α`) paired with the resulting store; an
`HTTPException` raised before any write leaves the store unchanged, which
the embedding reflects by returning the input store in those branches.
MongoDB ObjectId strings are modelled by their validity predicate
(24 hexadecimal characters, which is what `bson.ObjectId(str)` accepts).
Timestamps (`datetime.utcnow()`) are modelled as a `Nat` server-clock
parameter.
-/

/-- An agent document in the `agents` collection (email, name, active flag). -/
structure Agent where
  email : String
  name : String
  is_active : Bool
deriving DecidableEq, Repr

/-- A ticket document in the `tickets` collection, with the exact fields
`create_ticket` persists.  `id` stands for the string form of `_id`. -/
structure Ticket where
  id : String
  title : String
  description : String
  created_by : String
  assigned_to : String
  status : String
  priority : String
  created_at : Nat
deriving DecidableEq, Repr

/-- A comment document in the `comments` collection, as read by
`get_ticket_detail`. -/
structure Comment where
  ticket_id : String
  author : String
  text : String
  is_public : Bool
  created_at : Nat
deriving DecidableEq, Repr

/-- The authenticated user injected by `get_current_user`. -/
structure User where
  email : String
  role : String
deriving DecidableEq, Repr

/-- The collections the ticket subsystem touches.  `system_state` is the
singleton rotation-cursor document: `none` models an absent document,
`some i` a document with `last_assigned_index = i`. -/
structure Store where
  agents : List Agent
  system_state : Option Nat
  tickets : List Ticket
  comments : List Comment
deriving DecidableEq, Repr

/-- An `HTTPException(status_code, detail)`. -/
structure HTTPError where
  status_code : Nat
  detail : String
deriving DecidableEq, Repr

instance {ε α : Type} [DecidableEq ε] [DecidableEq α] : DecidableEq (Except ε α) :=
  fun a b =>
    match a, b with
    | .error e1, .error e2 =>
      if h : e1 = e2 then isTrue (by rw [h]) else isFalse (by intro hh; cases hh; exact h rfl)
    | .ok v1, .ok v2 =>
      if h : v1 = v2 then isTrue (by rw [h]) else isFalse (by intro hh; cases hh; exact h rfl)
    | .error _, .ok _ => isFalse (by intro hh; cases hh)
    | .ok _, .error _ => isFalse (by intro hh; cases hh)

/-!
### Assignment engine — `app/services/assignment.py`

```python
agents = await db.agents.find({"is_active": True}).to_list(length=None)
if not agents:
    return None
state = await db.system_state.find_one({}) or {}
last_index = state.get("last_assigned_index", -1)
next_index = (last_index + 1) % len(agents)
next_agent = agents[next_index]
await db.system_state.update_one({}, {"$set": {"last_assigned_index": next_index}}, upsert=True)
return next_agent
```

The query has no explicit sort, so the roster is the `agents` collection
in iteration order, filtered to the active ones.  The function is split
into its read phase (everything up to computing `next_agent`) and its
write phase (the `update_one`), mirroring the two awaited store
operations between which the source holds no lock.
-/

/-- Result of `db.agents.find({"is_active": True})` with no sort: the collection in
iteration order, restricted to active agents. -/
def activeAgents (db : Store) : List Agent :=
  db.agents.filter (fun a => a.is_active)

/-- Computation `(last_index + 1) % len(agents)` with Python `%` semantics (which
`Int.emod` matches for a positive modulus); `last_index` defaults to `-1`
when the `system_state` document is absent. -/
def nextIndexFrom (state : Option Nat) (k : Nat) : Nat :=
  (((match state with
     | none => (-1 : Int)
     | some i => (i : Int)) + 1) % (k : Int)).toNat

/-- Read phase of `assign_agent_round_robin` (lines 8–17): fetch the
roster and the cursor document, compute the next index and agent.
Returns `none` when there are no active agents.  (The inner `none`
branch is unreachable: the computed index is always in range.) -/
def assignReadPhase (db : Store) : Option (Nat × Agent) :=
  match activeAgents db with
  | [] => none
  | a0 :: rest =>
    let next_index := nextIndexFrom db.system_state (a0 :: rest).length
    match (a0 :: rest)[next_index]? with
    | some a => some (next_index, a)
    | none => none

/-- Write phase of `assign_agent_round_robin` (lines 20–22): upsert the
singleton cursor document with the computed index. -/
def assignWritePhase (db : Store) (next_index : Nat) : Store :=
  { db with system_state := some next_index }

/-- Function `assign_agent_round_robin`, executed without interleaving: the read
phase followed by the write phase.  Returns the selected agent (`none`
when no active agents exist, in which case nothing is written) and the
resulting store. -/
def assign_agent_round_robin (db : Store) : Option Agent × Store :=
  match assignReadPhase db with
  | none => (none, db)
  | some (i, a) => (some a, assignWritePhase db i)

/-- Store state after `n` sequential `assign_agent_round_robin` calls. -/
def iterateAssign (db : Store) : Nat → Store
  | 0 => db
  | n + 1 => (assign_agent_round_robin (iterateAssign db n)).2

/-- The agent selected by the `i`-th sequential assignment (0-indexed). -/
def nthAssigned (db : Store) (i : Nat) : Option Agent :=
  (assign_agent_round_robin (iterateAssign db i)).1

/-- Two concurrent `assign_agent_round_robin` calls under the
interleaving in which both complete their read phase before either runs
its write phase.  This interleaving is possible because the source
awaits the `find_one` and the `update_one` separately with no lock or
atomic read-modify-write between them.  Returns the `(cursor value,
agent)` pair each call uses, and the final store. -/
def twoCallsBothReadFirst (db : Store) :
    Option (Nat × Agent) × Option (Nat × Agent) × Store :=
  match assignReadPhase db, assignReadPhase db with
  | some (i1, a1), some (i2, a2) =>
      (some (i1, a1), some (i2, a2), assignWritePhase (assignWritePhase db i1) i2)
  | r1, r2 => (r1, r2, db)

/-!
### Ticket router — `app/routers/tickets.py`
-/

/-- Validity of a string as a `bson.ObjectId`: exactly 24 hexadecimal
characters.  `ObjectId(ticket_id)` raises (caught and turned into a 400)
exactly when this is false. -/
def validObjectId (s : String) : Bool :=
  s.length == 24 &&
    s.data.all (fun c =>
      c.isDigit || ['a', 'b', 'c', 'd', 'e', 'f', 'A', 'B', 'C', 'D', 'E', 'F'].contains c)

/-- Mongo `update_one`: apply `f` to the first document matching `p`,
leave everything else unchanged. -/
def updateFirst {α : Type} (p : α → Bool) (f : α → α) : List α → List α
  | [] => []
  | x :: xs => if p x then f x :: xs else x :: updateFirst p f xs

/-- The request body of `POST /tickets` (`class TicketCreate`): only a
title and a description — in particular no client-supplied timestamp. -/
structure TicketCreate where
  title : String
  description : String
deriving DecidableEq, Repr

/-- Handler `create_ticket` (lines 40–62).  `now` is the server clock read by
`datetime.utcnow()` and `new_id` the `_id` Mongo generates on insert.
If the engine returns no agent the handler raises
`HTTPException(500, "No agents available")` before any ticket write. -/
def create_ticket (ticket : TicketCreate) (db : Store) (current_user : User)
    (now : Nat) (new_id : String) : Except HTTPError Ticket × Store :=
  match assign_agent_round_robin db with
  | (none, db1) => (.error ⟨500, "No agents available"⟩, db1)
  | (some agent, db1) =>
    let ticket_data : Ticket :=
      { id := new_id
        title := ticket.title
        description := ticket.description
        created_by := current_user.email
        assigned_to := agent.email
        status := "open"
        priority := "normal"
        created_at := now }
    (.ok ticket_data, { db1 with tickets := db1.tickets ++ [ticket_data] })

/-- Case-insensitive substring containment: the model of the Mongo
filter `{"$regex": q, "$options": "i"}` for a literal pattern `q`. -/
def containsCI (hay pat : String) : Bool :=
  decide (List.IsInfix pat.toLower.data hay.toLower.data)

/-- The query predicate `list_tickets` builds (lines 78–90): conjunction
of the `mine`, `status`, `priority` and free-text conditions.  An absent
(or empty, hence falsy) query parameter is modelled as `none`. -/
def matchesQuery (mine : Bool) (status_f priority_f q : Option String)
    (current_user : User) (t : Ticket) : Bool :=
  (if mine then t.created_by == current_user.email || t.assigned_to == current_user.email
   else true) &&
  (match status_f with | none => true | some s => t.status == s) &&
  (match priority_f with | none => true | some p => t.priority == p) &&
  (match q with | none => true | some s => containsCI t.title s || containsCI t.description s)

/-- Ordering `sort("created_at", -1)`: most recent creation first. -/
def createdDesc (a b : Ticket) : Prop := b.created_at ≤ a.created_at

instance : DecidableRel createdDesc := fun a b => Nat.decLe _ _

instance : IsTotal Ticket createdDesc := ⟨fun a b => Nat.le_total b.created_at a.created_at⟩

instance : IsTrans Ticket createdDesc := ⟨fun _ _ _ hab hbc => Nat.le_trans hbc hab⟩

/-- The tickets matching the query, sorted by creation time descending. -/
def sortByCreatedDesc (l : List Ticket) : List Ticket :=
  List.insertionSort createdDesc l

/-- The `{items, total, page, page_size}` payload of `GET /tickets`. -/
structure ListResponse where
  items : List Ticket
  total : Nat
  page : Nat
  page_size : Nat
deriving DecidableEq, Repr

/-- Handler `list_tickets` (lines 67–100).  FastAPI validates the declared
bounds `page ≥ 1` and `1 ≤ page_size ≤ 100` before the handler body
runs, rejecting the request with a 422; then the handler counts the
matches, sorts by `created_at` descending, and pages with
`skip((page - 1) * page_size).limit(page_size)`.  Reads only. -/
def list_tickets (mine : Bool) (status_f priority_f q : Option String)
    (page page_size : Nat) (db : Store) (current_user : User) :
    Except HTTPError ListResponse :=
  if page < 1 then .error ⟨422, "page must be at least 1"⟩
  else if page_size < 1 then .error ⟨422, "page_size must be at least 1"⟩
  else if 100 < page_size then .error ⟨422, "page_size must be at most 100"⟩
  else
    let matching := db.tickets.filter (matchesQuery mine status_f priority_f q current_user)
    let skip := (page - 1) * page_size
    let items := ((sortByCreatedDesc matching).drop skip).take page_size
    .ok { items := items, total := matching.length, page := page, page_size := page_size }

/-- The query-parameter defaults declared in `list_tickets`'s signature:
`mine=True`, `status=None`, `priority=None`, `q=None`, `page=1`,
`page_size=10`. -/
def mineDefault : Bool := true

/-- Default `page` query parameter. -/
def pageDefault : Nat := 1

/-- Default `page_size` query parameter. -/
def pageSizeDefault : Nat := 10

/-- Call of `GET /tickets` with every query parameter left at its declared
default. -/
def list_tickets_defaults (db : Store) (current_user : User) :
    Except HTTPError ListResponse :=
  list_tickets mineDefault none none none pageDefault pageSizeDefault db current_user

/-- The denormalized agent payload `get_ticket_detail` attaches. -/
structure AgentInfo where
  email : String
  name : Option String
deriving DecidableEq, Repr

/-- The response of `GET /tickets/{ticket_id}`. -/
structure TicketDetail where
  ticket : Ticket
  assigned_agent : Option AgentInfo
  latest_public_comments : List Comment
deriving DecidableEq, Repr

/-- Ordering `sort("created_at", -1)` on comments. -/
def commentCreatedDesc (a b : Comment) : Prop := b.created_at ≤ a.created_at

instance : DecidableRel commentCreatedDesc := fun a b => Nat.decLe _ _

/-- Handler `get_ticket_detail` (lines 105–142): 400 on a malformed id, 404 when
absent, otherwise the ticket enriched with agent info and the five most
recent public comments.  Reads only; the store is returned unchanged. -/
def get_ticket_detail (ticket_id : String) (db : Store) (current_user : User) :
    Except HTTPError TicketDetail × Store :=
  if !(validObjectId ticket_id) then (.error ⟨400, "Invalid ticket id"⟩, db)
  else
    match db.tickets.find? (fun t => t.id == ticket_id) with
    | none => (.error ⟨404, "Ticket not found"⟩, db)
    | some ticket =>
      let agent_info : Option AgentInfo :=
        if ticket.assigned_to != "" then
          match db.agents.find? (fun a => a.email == ticket.assigned_to) with
          | some agent => some ⟨agent.email, some agent.name⟩
          | none => some ⟨ticket.assigned_to, none⟩
        else none
      let comments :=
        (List.insertionSort commentCreatedDesc
          (db.comments.filter (fun c => c.ticket_id == ticket_id && c.is_public))).take 5
      (.ok ⟨ticket, agent_info, comments⟩, db)

/-- Handler `update_ticket_status` (lines 147–180): 400 on a malformed id, 404
when absent, 403 unless the requester is an admin or the creator, 400 on
a status outside the three-element enum; otherwise `$set` the status on
the matched document and return the re-fetched document (`none` models
the body `null` should the re-fetch miss).  There is no check that the
current status is not `closed`. -/
def update_ticket_status (ticket_id : String) (status_update : Option String)
    (db : Store) (current_user : User) : Except HTTPError (Option Ticket) × Store :=
  if !(validObjectId ticket_id) then (.error ⟨400, "Invalid ticket id"⟩, db)
  else
    match db.tickets.find? (fun t => t.id == ticket_id) with
    | none => (.error ⟨404, "Ticket not found"⟩, db)
    | some ticket =>
      if current_user.role != "admin" && ticket.created_by != current_user.email then
        (.error ⟨403, "Not authorized to update this ticket"⟩, db)
      else
        match status_update with
        | none => (.error ⟨400, "Invalid status value"⟩, db)
        | some new_status =>
          if !(["open", "in_progress", "closed"].contains new_status) then
            (.error ⟨400, "Invalid status value"⟩, db)
          else
            let tickets1 := updateFirst (fun t => t.id == ticket_id)
              (fun t => { t with status := new_status }) db.tickets
            (.ok (tickets1.find? (fun t => t.id == ticket_id)),
             { db with tickets := tickets1 })

/-- Handler `delete_ticket` (lines 185–204): the admin check runs before the id
is parsed; then a malformed id gives a 400, and `delete_one` with
`deleted_count == 0` gives a 404. -/
def delete_ticket (ticket_id : String) (db : Store) (current_user : User) :
    Except HTTPError Unit × Store :=
  if current_user.role != "admin" then (.error ⟨403, "Admins only can delete tickets"⟩, db)
  else if !(validObjectId ticket_id) then (.error ⟨400, "Invalid ticket id"⟩, db)
  else
    let remaining := db.tickets.eraseP (fun t => t.id == ticket_id)
    if db.tickets.length - remaining.length == 0 then (.error ⟨404, "Ticket not found"⟩, db)
    else (.ok (), { db with tickets := remaining })

/-!
### Concrete stores for the worked examples and witnesses
-/

/-- Example agent A. -/
def agentA : Agent := ⟨"a@example.com", "Agent A", true⟩

/-- Example agent B. -/
def agentB : Agent := ⟨"b@example.com", "Agent B", true⟩

/-- Example agent C. -/
def agentC : Agent := ⟨"c@example.com", "Agent C", true⟩

/-- Example requester (role `user`), creator of the example tickets. -/
def ownerUser : User := ⟨"u@example.com", "user"⟩

/-- Example administrator. -/
def adminUser : User := ⟨"admin@example.com", "admin"⟩

/-- Store with the three-agent roster [A, B, C] and an unset cursor. -/
def dbRoster3 : Store := ⟨[agentA, agentB, agentC], none, [], []⟩

/-- Store whose only agent is inactive: the active roster is empty. -/
def dbNoActive : Store := ⟨[⟨"z@example.com", "Agent Z", false⟩], none, [], []⟩

/-- Store with the single active agent A and an unset cursor. -/
def dbOneAgent : Store := ⟨[agentA], none, [], []⟩

/-- State of `dbOneAgent` after one assignment: the cursor document now holds 0. -/
def dbOneAgentAfter : Store := ⟨[agentA], some 0, [], []⟩

/-- Store with roster [A, B] and an unset cursor, used for the
concurrent-creation interleaving. -/
def raceDb : Store := ⟨[agentA, agentB], none, [], []⟩

/-- The same two-agent set as `raceDb` but iterated in the other order. -/
def raceDbSwapped : Store := ⟨[agentB, agentA], none, [], []⟩

/-- A ticket that is already `closed`, created by `ownerUser`. -/
def closedTicket : Ticket :=
  ⟨"aaaaaaaaaaaaaaaaaaaaaaaa", "Printer broken", "It smokes", "u@example.com",
   "a@example.com", "closed", "normal", 1⟩

/-- An `open` ticket created by `ownerUser`. -/
def openTicket : Ticket :=
  ⟨"bbbbbbbbbbbbbbbbbbbbbbbb", "Screen flickers", "Sometimes", "u@example.com",
   "a@example.com", "open", "normal", 2⟩

/-- Store holding only the closed ticket. -/
def dbClosed : Store := ⟨[], none, [closedTicket], []⟩

/-- Store holding the closed and the open ticket. -/
def dbTwo : Store := ⟨[], none, [closedTicket, openTicket], []⟩

/-- A ticket list t1 … t12 created by `ownerUser` at times 1 … 12, for
the pagination example. -/
def twelveTickets : List Ticket :=
  (List.range 12).map (fun n =>
    ⟨toString (n + 1), "T", "D", "u@example.com", "a@example.com", "open", "normal", n + 1⟩)

/-- Store holding the twelve example tickets. -/
def dbTwelve : Store := ⟨[], none, twelveTickets, []⟩

/-- Store holding a single ticket created by `ownerUser`. -/
def dbMine : Store := ⟨[], none, [openTicket], []⟩

/-- Copy of `openTicket` after its status was updated to `in_progress`. -/
def openTicketStarted : Ticket := { openTicket with status := "in_progress" }

/-- State of `dbTwo` after `update_ticket_status` moved the open ticket to
`in_progress`. -/
def dbTwoAfter : Store := ⟨[], none, [closedTicket, openTicketStarted], []⟩

/-!
### Helper lemmas about the assignment engine
-/

theorem nextIndexFrom_none (k : Nat) : nextIndexFrom none k = 0 := by
  unfold nextIndexFrom
  norm_num

theorem nextIndexFrom_some (i k : Nat) : nextIndexFrom (some i) k = (i + 1) % k := by
  have h : ((i : Int) + 1) % (k : Int) = (((i + 1) % k : Nat) : Int) := by
    push_cast
    ring_nf
  unfold nextIndexFrom
  rw [h, Int.toNat_natCast]

theorem nextIndexFrom_lt (state : Option Nat) (k : Nat) (hk : 0 < k) :
    nextIndexFrom state k < k := by
  cases state with
  | none => rw [nextIndexFrom_none]; exact hk
  | some i => rw [nextIndexFrom_some]; exact Nat.mod_lt _ hk

theorem assign_of_empty (db : Store) (h : activeAgents db = []) :
    assign_agent_round_robin db = (none, db) := by
  unfold assign_agent_round_robin assignReadPhase
  rw [h]

theorem assignReadPhase_of_ne (db : Store) (h : activeAgents db ≠ []) :
    ∃ a, (activeAgents db)[nextIndexFrom db.system_state (activeAgents db).length]? = some a ∧
      assignReadPhase db = some (nextIndexFrom db.system_state (activeAgents db).length, a) := by
  cases hA : activeAgents db with
  | nil => exact absurd hA h
  | cons a0 rest =>
    have hlt : nextIndexFrom db.system_state (a0 :: rest).length < (a0 :: rest).length :=
      nextIndexFrom_lt _ _ (Nat.succ_pos _)
    refine ⟨(a0 :: rest).get ⟨_, hlt⟩, ?_, ?_⟩
    · simp only [List.get_eq_getElem]
      exact List.getElem?_eq_getElem hlt
    · unfold assignReadPhase
      rw [hA]
      simp only [List.getElem?_eq_getElem hlt, List.get_eq_getElem]

theorem assign_of_ne (db : Store) (h : activeAgents db ≠ []) :
    (assign_agent_round_robin db).1 =
      (activeAgents db)[nextIndexFrom db.system_state (activeAgents db).length]? ∧
    (assign_agent_round_robin db).2 =
      { db with system_state := some (nextIndexFrom db.system_state (activeAgents db).length) } := by
  obtain ⟨a, hget, hread⟩ := assignReadPhase_of_ne db h
  unfold assign_agent_round_robin
  rw [hread, hget]
  exact ⟨rfl, rfl⟩

theorem assign_preserves (db : Store) :
    (assign_agent_round_robin db).2.agents = db.agents ∧
    (assign_agent_round_robin db).2.tickets = db.tickets ∧
    (assign_agent_round_robin db).2.comments = db.comments := by
  unfold assign_agent_round_robin
  cases assignReadPhase db with
  | none => exact ⟨rfl, rfl, rfl⟩
  | some p =>
    cases p with
    | mk i a => exact ⟨rfl, rfl, rfl⟩

theorem iterateAssign_agents (db : Store) (n : Nat) :
    (iterateAssign db n).agents = db.agents := by
  induction n with
  | zero => rfl
  | succ m ih =>
    show (assign_agent_round_robin (iterateAssign db m)).2.agents = db.agents
    rw [(assign_preserves _).1, ih]

/-!
### The claims
-/

/-- C1 (confirmed): for a fixed all-active roster of size K ≥ 1 in the
stable listing order and an unset rotation cursor, the agent selected for
the i-th sequential ticket creation (0-indexed from the first ever
assignment) is `roster[i % K]` — in particular A, B, C, A, … against the
roster [A, B, C]. -/
theorem C1_round_robin (roster : List Agent) (db : Store)
    (hag : db.agents = roster) (hact : ∀ a ∈ roster, a.is_active = true)
    (hst : db.system_state = none) (hne : roster ≠ []) (i : Nat) :
    nthAssigned db i = roster[i % roster.length]? := by
  have hAct : ∀ n, activeAgents (iterateAssign db n) = roster := by
    intro n
    unfold activeAgents
    rw [iterateAssign_agents, hag]
    exact List.filter_eq_self.mpr hact
  have hne2 : ∀ n, activeAgents (iterateAssign db n) ≠ [] := by
    intro n
    rw [hAct n]
    exact hne
  have hState : ∀ n, (iterateAssign db (n + 1)).system_state = some (n % roster.length) := by
    intro n
    induction n with
    | zero =>
      show (assign_agent_round_robin (iterateAssign db 0)).2.system_state =
        some (0 % roster.length)
      rw [(assign_of_ne _ (hne2 0)).2]
      show some (nextIndexFrom (iterateAssign db 0).system_state
        (activeAgents (iterateAssign db 0)).length) = _
      show some (nextIndexFrom db.system_state (activeAgents db).length) = _
      rw [hst, nextIndexFrom_none, Nat.zero_mod]
    | succ m ih =>
      show (assign_agent_round_robin (iterateAssign db (m + 1))).2.system_state = _
      rw [(assign_of_ne _ (hne2 (m + 1))).2]
      show some (nextIndexFrom (iterateAssign db (m + 1)).system_state
        (activeAgents (iterateAssign db (m + 1))).length) = _
      rw [hAct (m + 1), ih, nextIndexFrom_some, Nat.mod_add_mod]
  cases i with
  | zero =>
    show (assign_agent_round_robin (iterateAssign db 0)).1 = _
    rw [(assign_of_ne _ (hne2 0)).1, hAct 0]
    show roster[nextIndexFrom db.system_state roster.length]? = _
    rw [hst, nextIndexFrom_none, Nat.zero_mod]
  | succ m =>
    show (assign_agent_round_robin (iterateAssign db (m + 1))).1 = _
    rw [(assign_of_ne _ (hne2 (m + 1))).1, hAct (m + 1), hState m, nextIndexFrom_some,
      Nat.mod_add_mod]

/-- Witness for C1 at the roster [A, B, C] with an unset cursor: the
first four creations select A, B, C, then A again. -/
theorem C1_round_robin_witness :
    nthAssigned dbRoster3 0 = some agentA ∧ nthAssigned dbRoster3 1 = some agentB ∧
    nthAssigned dbRoster3 2 = some agentC ∧ nthAssigned dbRoster3 3 = some agentA := by
  refine ⟨?_, ?_, ?_, ?_⟩ <;>
    rw [C1_round_robin [agentA, agentB, agentC] dbRoster3 rfl (by decide) rfl (by decide)] <;>
    decide

/-- C4 (confirmed): with an empty active roster, the engine reports no
agent available (`None`) and leaves the store — in particular the
persisted `system_state` cursor document — untouched. -/
theorem C4_empty_roster (db : Store) (h : activeAgents db = []) :
    assign_agent_round_robin db = (none, db) ∧
    (assign_agent_round_robin db).2.system_state = db.system_state := by
  have he := assign_of_empty db h
  exact ⟨he, by rw [he]⟩

/-- Witness for C4: a store whose only agent is inactive. -/
theorem C4_empty_roster_witness :
    assign_agent_round_robin dbNoActive = (none, dbNoActive) ∧
    (assign_agent_round_robin dbNoActive).2.system_state = dbNoActive.system_state :=
  C4_empty_roster dbNoActive (by decide)

/-- C2 (code_bug): the claim — and §4.2 of the design — say `closed` is
terminal and any status mutation of a closed ticket fails with
`TicketClosed`.  The handler `update_ticket_status` has no such check:
evaluated on a closed ticket whose creator asks for `open`, the call
succeeds (HTTP 200) and the stored status really changes.  There is no
`TicketClosed` error anywhere in the source. -/
theorem C2_closed_is_not_terminal :
    closedTicket.status = "closed" ∧
    update_ticket_status closedTicket.id (some "open") dbClosed ownerUser =
      (.ok (some { closedTicket with status := "open" }),
       { dbClosed with tickets := [{ closedTicket with status := "open" }] }) := by
  constructor
  · rfl
  · decide

/-- C3 (code_bug): the cursor read-modify-write is *not* atomic — the
source separately awaits `find_one` and `update_one` with no lock or
compare-and-swap.  Under the legal interleaving in which two concurrent
calls both read before either writes, both calls are assigned using the
same cursor value 0 and both select agent A, contradicting the claimed
no-duplicate-cursor-value property. -/
theorem C3_cursor_race :
    twoCallsBothReadFirst raceDb =
      (some (0, agentA), some (0, agentA), { raceDb with system_state := some 0 }) ∧
    (twoCallsBothReadFirst raceDb).1 = (twoCallsBothReadFirst raceDb).2.1 := by
  constructor
  · decide
  · decide

/-- C5 (confirmed): ticket creation by an authenticated user fails with a
server-side 500 "No agents available" and persists nothing when the
engine reports no agent; otherwise it persists exactly one new ticket
with status `open`, the engine-selected agent as assignee, and the
server-clock timestamp `now` — the request body (`TicketCreate`) has no
timestamp field, so `created_at` can never come from the client. -/
theorem C5_create_ticket (ticket : TicketCreate) (db : Store) (u : User) (now : Nat)
    (new_id : String) :
    (activeAgents db = [] →
      create_ticket ticket db u now new_id = (.error ⟨500, "No agents available"⟩, db)) ∧
    (∀ agent db1, assign_agent_round_robin db = (some agent, db1) →
      ∃ t, create_ticket ticket db u now new_id =
          (.ok t, { db1 with tickets := db1.tickets ++ [t] }) ∧
        t.status = "open" ∧ t.assigned_to = agent.email ∧ t.created_at = now ∧
        t.created_by = u.email ∧ t.title = ticket.title ∧ t.description = ticket.description) := by
  constructor
  · intro h
    unfold create_ticket
    rw [assign_of_empty db h]
  · intro agent db1 hassign
    unfold create_ticket
    rw [hassign]
    exact ⟨_, rfl, rfl, rfl, rfl, rfl, rfl, rfl⟩

/-- Witness for C5: with no active agent the creation fails with the 500
and the store is unchanged; with the single active agent A it persists a
ticket assigned to A, status `open`, stamped with the server clock 5. -/
theorem C5_create_ticket_witness :
    (create_ticket ⟨"T", "D"⟩ dbNoActive ownerUser 0 "cccccccccccccccccccccccc" =
      (.error ⟨500, "No agents available"⟩, dbNoActive)) ∧
    (∃ t, create_ticket ⟨"T", "D"⟩ dbOneAgent ownerUser 5 "cccccccccccccccccccccccc" =
        (.ok t, { dbOneAgentAfter with tickets := dbOneAgentAfter.tickets ++ [t] }) ∧
      t.status = "open" ∧ t.assigned_to = agentA.email ∧ t.created_at = 5 ∧
      t.created_by = ownerUser.email ∧ t.title = "T" ∧ t.description = "D") :=
  ⟨(C5_create_ticket ⟨"T", "D"⟩ dbNoActive ownerUser 0 "cccccccccccccccccccccccc").1 (by decide),
   (C5_create_ticket ⟨"T", "D"⟩ dbOneAgent ownerUser 5 "cccccccccccccccccccccccc").2
     agentA dbOneAgentAfter (by decide)⟩

/-- C6 (code_bug): the claim — and §4.1 — require the roster to be
fetched in a stable-key order; the source issues
`db.agents.find({"is_active": True})` with no sort, so the roster is
whatever iteration order the store yields.  The selection genuinely
depends on that order: over the same two-agent *set* presented in the
two possible orders (equal cursor state), the engine selects agent A in
one and agent B in the other. -/
theorem C6_unstable_roster_order :
    List.Perm raceDb.agents raceDbSwapped.agents ∧
    raceDb.system_state = raceDbSwapped.system_state ∧
    (assign_agent_round_robin raceDb).1 = some agentA ∧
    (assign_agent_round_robin raceDbSwapped).1 = some agentB ∧
    agentA ≠ agentB := by
  refine ⟨?_, rfl, ?_, ?_, ?_⟩ <;> decide

/-- C7 (confirmed): under the server-enforced maximum page size of 100
(FastAPI rejects `page_size > 100` before the handler runs), listing
returns exactly the filter-matching tickets ordered by creation time
most recent first, paginated offset-style with
`skip = (page - 1) * page_size`: the returned items are the
`skip`-th through `(skip + page_size - 1)`-th elements of the sorted
filtered sequence — so `page=2, page_size=10` returns items 11–20. -/
theorem C7_list_pagination (mine : Bool) (status_f priority_f q : Option String)
    (page page_size : Nat) (db : Store) (u : User)
    (h1 : 1 ≤ page) (h2 : 1 ≤ page_size) :
    (page_size ≤ 100 →
      ∃ resp, list_tickets mine status_f priority_f q page page_size db u = .ok resp ∧
        resp.items =
          ((sortByCreatedDesc (db.tickets.filter (matchesQuery mine status_f priority_f q u))).drop
            ((page - 1) * page_size)).take page_size ∧
        resp.total = (db.tickets.filter (matchesQuery mine status_f priority_f q u)).length ∧
        resp.page = page ∧ resp.page_size = page_size ∧
        List.Sorted createdDesc resp.items ∧
        List.Perm
          (sortByCreatedDesc (db.tickets.filter (matchesQuery mine status_f priority_f q u)))
          (db.tickets.filter (matchesQuery mine status_f priority_f q u)) ∧
        (∀ j, j < page_size →
          resp.items[j]? =
            (sortByCreatedDesc
              (db.tickets.filter
                (matchesQuery mine status_f priority_f q u)))[(page - 1) * page_size + j]?)) ∧
    (100 < page_size →
      list_tickets mine status_f priority_f q page page_size db u =
        .error ⟨422, "page_size must be at most 100"⟩) := by
  constructor
  · intro h3
    unfold list_tickets
    rw [if_neg (by omega), if_neg (by omega), if_neg (by omega)]
    have hs : List.Sorted createdDesc
        (sortByCreatedDesc (db.tickets.filter (matchesQuery mine status_f priority_f q u))) :=
      List.sorted_insertionSort _ _
    refine ⟨_, rfl, rfl, rfl, rfl, rfl, ?_, List.perm_insertionSort _ _, ?_⟩
    · exact List.Pairwise.sublist
        ((List.take_sublist _ _).trans (List.drop_sublist _ _)) hs
    · intro j hj
      rw [List.getElem?_take_of_lt hj, List.getElem?_drop]
  · intro h3
    unfold list_tickets
    rw [if_neg (by omega), if_neg (by omega), if_pos (by omega)]

/-- Witness for C7 at twelve tickets created at times 1 … 12 with
`page = 2`, `page_size = 10`. -/
theorem C7_list_pagination_witness :
    ∃ resp, list_tickets true none none none 2 10 dbTwelve ownerUser = .ok resp ∧
      resp.items =
        ((sortByCreatedDesc (dbTwelve.tickets.filter (matchesQuery true none none none ownerUser))).drop
          ((2 - 1) * 10)).take 10 ∧
      resp.total = (dbTwelve.tickets.filter (matchesQuery true none none none ownerUser)).length ∧
      resp.page = 2 ∧ resp.page_size = 10 ∧
      List.Sorted createdDesc resp.items ∧
      List.Perm
        (sortByCreatedDesc (dbTwelve.tickets.filter (matchesQuery true none none none ownerUser)))
        (dbTwelve.tickets.filter (matchesQuery true none none none ownerUser)) ∧
      (∀ j, j < 10 →
        resp.items[j]? =
          (sortByCreatedDesc
            (dbTwelve.tickets.filter (matchesQuery true none none none ownerUser)))[(2 - 1) * 10 + j]?) :=
  (C7_list_pagination true none none none 2 10 dbTwelve ownerUser (by decide) (by decide)).1
    (by decide)

/-- Counterexample for C8 as stated: a non-admin requester presenting a
malformed ticket id to the delete operation receives a 403, not the
claimed 400 — `delete_ticket` checks the admin role before parsing the
id. -/
theorem C8_counterexample :
    validObjectId "not-a-valid-objectid" = false ∧
    (delete_ticket "not-a-valid-objectid" dbTwo ownerUser).1 =
      .error ⟨403, "Admins only can delete tickets"⟩ ∧
    (delete_ticket "not-a-valid-objectid" dbTwo ownerUser).1 ≠
      .error ⟨400, "Invalid ticket id"⟩ := by
  refine ⟨?_, ?_, ?_⟩ <;> decide

/-- C8 (corrected): a malformed (non-ObjectId) identifier yields a 400
with no state change on `get_ticket_detail` and `update_ticket_status`
for every authenticated requester; on `delete_ticket` the admin check
runs first, so an admin requester gets the 400 while a non-admin gets a
403 — in every case the response is never a 500 and the store is
unchanged. -/
theorem C8_malformed_id (ticket_id : String) (db : Store) (u : User) (body : Option String)
    (h : validObjectId ticket_id = false) :
    get_ticket_detail ticket_id db u = (.error ⟨400, "Invalid ticket id"⟩, db) ∧
    update_ticket_status ticket_id body db u = (.error ⟨400, "Invalid ticket id"⟩, db) ∧
    (u.role = "admin" → delete_ticket ticket_id db u = (.error ⟨400, "Invalid ticket id"⟩, db)) ∧
    (u.role ≠ "admin" →
      delete_ticket ticket_id db u = (.error ⟨403, "Admins only can delete tickets"⟩, db)) := by
  refine ⟨?_, ?_, ?_, ?_⟩
  · unfold get_ticket_detail
    rw [h]
    rfl
  · unfold update_ticket_status
    rw [h]
    rfl
  · intro hr
    have hb : (u.role != "admin") = false := by simp [hr]
    unfold delete_ticket
    rw [hb, h]
    rfl
  · intro hr
    have hb : (u.role != "admin") = true := by simp [hr]
    unfold delete_ticket
    rw [hb]
    rfl

/-- Witness for C8: the malformed id `"nope"` against both an admin and
a regular requester. -/
theorem C8_malformed_id_witness :
    get_ticket_detail "nope" dbTwo adminUser = (.error ⟨400, "Invalid ticket id"⟩, dbTwo) ∧
    update_ticket_status "nope" (some "open") dbTwo adminUser =
      (.error ⟨400, "Invalid ticket id"⟩, dbTwo) ∧
    delete_ticket "nope" dbTwo adminUser = (.error ⟨400, "Invalid ticket id"⟩, dbTwo) ∧
    delete_ticket "nope" dbTwo ownerUser =
      (.error ⟨403, "Admins only can delete tickets"⟩, dbTwo) :=
  ⟨(C8_malformed_id "nope" dbTwo adminUser (some "open") (by decide)).1,
   (C8_malformed_id "nope" dbTwo adminUser (some "open") (by decide)).2.1,
   (C8_malformed_id "nope" dbTwo adminUser (some "open") (by decide)).2.2.1 rfl,
   (C8_malformed_id "nope" dbTwo ownerUser (some "open") (by decide)).2.2.2 (by decide)⟩

theorem updateFirst_of_find {α : Type} (p : α → Bool) (f : α → α) (l : List α) (x : α)
    (h : l.find? p = some x) (hf : p (f x) = true) :
    ∃ j, l[j]? = some x ∧ updateFirst p f l = l.set j (f x) ∧
      (updateFirst p f l).find? p = some (f x) := by
  induction l with
  | nil => simp [List.find?] at h
  | cons y ys ih =>
    by_cases hy : p y = true
    · rw [List.find?_cons_of_pos _ hy] at h
      obtain rfl : y = x := Option.some.inj h
      have hu : updateFirst p f (y :: ys) = f y :: ys := by
        simp [updateFirst, hy]
      refine ⟨0, by simp, hu, ?_⟩
      rw [hu, List.find?_cons_of_pos _ hf]
    · have hy2 : p y = false := by simpa using hy
      rw [List.find?_cons_of_neg _ (by simp [hy2])] at h
      obtain ⟨j, hj1, hj2, hj3⟩ := ih h
      have hcons : updateFirst p f (y :: ys) = y :: updateFirst p f ys := by
        simp [updateFirst, hy2]
      refine ⟨j + 1, by simpa using hj1, ?_, ?_⟩
      · rw [hcons, hj2]
        rfl
      · rw [hcons, List.find?_cons_of_neg _ (by simp [hy2]), hj3]

/-- C9 (confirmed): a successful status update `$set`s only the status
of the first ticket matching the id; its every other field, every other
ticket, and the other collections are unchanged. -/
theorem C9_update_frame (ticket_id : String) (body : Option String) (db : Store) (u : User)
    (t : Ticket) (db2 : Store)
    (h : update_ticket_status ticket_id body db u = (.ok (some t), db2)) :
    db2.agents = db.agents ∧ db2.system_state = db.system_state ∧
    db2.comments = db.comments ∧
    ∃ j t0, db.tickets[j]? = some t0 ∧ t = { t0 with status := t.status } ∧
      db2.tickets = db.tickets.set j t ∧
      ∀ k, k ≠ j → db2.tickets[k]? = db.tickets[k]? := by
  unfold update_ticket_status at h
  split at h
  · simp at h
  · split at h
    · simp at h
    · rename_i ticket hfind
      split at h
      · simp at h
      · split at h
        · simp at h
        · rename_i new_status
          split at h
          · simp at h
          · rw [Prod.mk.injEq] at h
            obtain ⟨h1, h2⟩ := h
            subst h2
            have hpt := List.find?_some hfind
            obtain ⟨j, hj1, hj2, hj3⟩ :=
              updateFirst_of_find (fun tk => tk.id == ticket_id)
                (fun tk => { tk with status := new_status }) db.tickets ticket hfind hpt
            rw [hj3] at h1
            injection h1 with h1
            obtain rfl : ({ ticket with status := new_status } : Ticket) = t :=
              Option.some.inj h1
            refine ⟨rfl, rfl, rfl, j, ticket, hj1, rfl, ?_, ?_⟩
            · show updateFirst _ _ db.tickets = _
              rw [hj2]
            · intro k hk
              show (updateFirst _ _ db.tickets)[k]? = _
              rw [hj2]
              exact List.getElem?_set_ne (Ne.symm hk)

/-- Witness for C9: moving the open ticket of `dbTwo` to `in_progress`
changes exactly that ticket's status and nothing else. -/
theorem C9_update_frame_witness :
    dbTwoAfter.agents = dbTwo.agents ∧ dbTwoAfter.system_state = dbTwo.system_state ∧
    dbTwoAfter.comments = dbTwo.comments ∧
    ∃ j t0, dbTwo.tickets[j]? = some t0 ∧
      openTicketStarted = { t0 with status := openTicketStarted.status } ∧
      dbTwoAfter.tickets = dbTwo.tickets.set j openTicketStarted ∧
      ∀ k, k ≠ j → dbTwoAfter.tickets[k]? = dbTwo.tickets[k]? :=
  C9_update_frame openTicket.id (some "in_progress") dbTwo ownerUser
    openTicketStarted dbTwoAfter (by decide)

/-- C10 (confirmed): the `mine` query parameter defaults to true, so a
List call without an explicit `mine` returns only tickets created by or
assigned to the requester; seeing other users' tickets requires passing
`mine=false` explicitly. -/
theorem C10_mine_defaults_true (db : Store) (u : User) :
    mineDefault = true ∧
    (∀ resp t, list_tickets_defaults db u = .ok resp → t ∈ resp.items →
      t.created_by = u.email ∨ t.assigned_to = u.email) := by
  refine ⟨rfl, ?_⟩
  intro resp t hok hmem
  unfold list_tickets_defaults list_tickets mineDefault pageDefault pageSizeDefault at hok
  rw [if_neg (by omega), if_neg (by omega), if_neg (by omega)] at hok
  injection hok with hok
  subst hok
  have hmem2 : t ∈ sortByCreatedDesc (db.tickets.filter (matchesQuery true none none none u)) :=
    List.drop_subset _ _ (List.take_subset _ _ hmem)
  have hmem3 : t ∈ db.tickets.filter (matchesQuery true none none none u) :=
    (List.perm_insertionSort _ _).mem_iff.mp hmem2
  have hq : matchesQuery true none none none u t = true := (List.mem_filter.mp hmem3).2
  unfold matchesQuery at hq
  simp only [if_true, Bool.and_true, Bool.and_eq_true, Bool.or_eq_true, beq_iff_eq] at hq
  exact hq

/-- Witness for C10: with every parameter defaulted, the listing over
`dbMine` returns the requester's own ticket, and the theorem yields that
it is created by or assigned to the requester. -/
theorem C10_mine_defaults_true_witness :
    openTicket.created_by = ownerUser.email ∨ openTicket.assigned_to = ownerUser.email :=
  (C10_mine_defaults_true dbMine ownerUser).2 ⟨[openTicket], 1, 1, 10⟩ openTicket
    (by decide) (by decide)
